import Mathlib

/-!
# Frame inspection callback of `src/main.cpp`

A shallow embedding of the per-frame probe callback `app_callback` and of the helpers it
calls (`get_caps_from_pad`, `get_numpy_from_buffer`, the methods of `UserAppCallbackClass`),
followed by theorems about the detection table, the frame counter, the save cadence, the
metadata scan and the colour handling.

Conventions of the embedding.
* C++ `int` values are `Int`; the only arithmetic on them that can leave the 32-bit range is
  `frame_count++`, which is reduced with `wrapInt`. `%` on `int` truncates towards zero and
  is `Int.tmod`.
* GStreamer objects are records of what the code reads from them.
* OpenCV pixel arithmetic (`cv::cvtColor`, `cv::putText`) is not part of the repository and
  is taken as a parameter `OpenCV`; the size check of the `cv::Mat` constructor is modelled
  and is the one place where the code can throw.
* Output effects (`std::cout`, `set_frame`, `cv::imwrite`) are returned as values.
-/

namespace HailoRpi5

/-! ## OpenCV values -/

/-- An 8-bit image: `rows`, `cols`, channel count and the bytes in row-major order. -/
structure Mat where
  rows : Int
  cols : Int
  channels : Nat
  data : List Nat
deriving DecidableEq, Repr

/-- The default-constructed matrix of `cv::Mat frame;`. -/
def Mat.blank : Mat := ⟨0, 0, 0, []⟩

/-- The method `cv::Mat::empty()`: no element. -/
def Mat.empty (m : Mat) : Bool := decide (m.rows = 0 ∨ m.cols = 0)

/-- The method `cv::Mat::clone()`: a deep copy, the same value. -/
def Mat.clone (m : Mat) : Mat := m

/-- The exception a `cv::Mat` constructor throws. -/
inductive CvError where
  | negativeSize
deriving DecidableEq, Repr

/-- The constructor `cv::Mat(rows, cols, type, data)` over user memory, for an 8-bit type
with `channels` channels: a negative size fails the constructor's assertion; otherwise
the header covers the first `rows * cols * channels` bytes of `data`. -/
def Mat.ofData (rows cols : Int) (channels : Nat) (data : List Nat) : Except CvError Mat :=
  if rows < 0 ∨ cols < 0 then .error CvError.negativeSize
  else .ok ⟨rows, cols, channels, data.take (rows * cols * channels).toNat⟩

/-- The colour conversion codes the program passes to `cv::cvtColor`. -/
inductive ColorConversionCodes where
  | COLOR_RGBA2RGB
  | COLOR_YUV2RGB_YUY2
  | COLOR_RGB2BGR
deriving DecidableEq, Repr

/-- The OpenCV routines whose pixel arithmetic lies outside the repository.
`putText img text x y` stands for
`cv::putText(img, text, cv::Point(x, y), cv::FONT_HERSHEY_SIMPLEX, 1, cv::Scalar(0, 255, 0), 2)`. -/
structure OpenCV where
  cvtColor : Mat → ColorConversionCodes → Mat
  putText : Mat → String → Int → Int → Mat

/-! ## GStreamer values -/

/-- The first structure of a caps object, as far as the code reads it: the string field
`format` and the integer fields `width` and `height`, each present or not. -/
structure GstStructure where
  format : Option String
  width : Option Int
  height : Option Int
deriving DecidableEq, Repr

/-- A caps object: its structures in order. -/
abbrev GstCaps := List GstStructure

/-- A pad: the caps currently negotiated on it, if any (`gst_pad_get_current_caps`). -/
structure GstPad where
  current_caps : Option GstCaps
deriving DecidableEq, Repr

/-- One metadata record of a buffer: the name of its API type,
`g_type_name(meta->info->api)`. -/
structure GstMeta where
  api_name : String
deriving DecidableEq, Repr

/-- A buffer: its attached metadata in attachment order and the bytes `gst_buffer_map`
yields for reading, or `none` when the mapping fails. -/
structure GstBuffer where
  metas : List GstMeta
  mapped : Option (List Nat)
deriving DecidableEq, Repr

/-- The probe info: the buffer it carries (`gst_pad_probe_info_get_buffer`), if any. -/
structure GstPadProbeInfo where
  buffer : Option GstBuffer
deriving DecidableEq, Repr

/-- The return values of a pad probe. -/
inductive GstPadProbeReturn where
  | GST_PAD_PROBE_DROP
  | GST_PAD_PROBE_OK
  | GST_PAD_PROBE_REMOVE
  | GST_PAD_PROBE_PASS
  | GST_PAD_PROBE_HANDLED
deriving DecidableEq, Repr

/-- The function `g_str_has_prefix(str, prefix)`. -/
def g_str_has_prefix (str pre : String) : Bool := pre.data.isPrefixOf str.data

/-- The function `g_str_has_suffix(str, suffix)`. -/
def g_str_has_suffix (str suf : String) : Bool := suf.data.isSuffixOf str.data

/-! ## Machine integers -/

/-- Reduction of an integer to the 32-bit two's complement range of `int`. -/
def wrapInt (x : Int) : Int := (x + 2147483648) % 4294967296 - 2147483648

/-- The largest `int`. -/
def INT_MAX : Int := 2147483647

/-- The function `std::to_string(int)`: the decimal numeral. -/
def to_string (x : Int) : String := toString x

/-! ## `UserAppCallbackClass` -/

/-- The user data object handed to every callback invocation. -/
structure UserAppCallbackClass where
  frame_count : Int := 0
  use_frame : Bool := true
  new_variable : Int := 42
  current_frame : Mat := Mat.blank
deriving DecidableEq, Repr

namespace UserAppCallbackClass

/-- The method `increment`: `frame_count++`. -/
def increment (u : UserAppCallbackClass) : UserAppCallbackClass :=
  { u with frame_count := wrapInt (u.frame_count + 1) }

/-- The method `get_count`. -/
def get_count (u : UserAppCallbackClass) : Int := u.frame_count

/-- The method `set_frame`: store a copy of the frame. -/
def set_frame (u : UserAppCallbackClass) (frame : Mat) : UserAppCallbackClass :=
  { u with current_frame := frame.clone }

/-- The method `new_function`. -/
def new_function (_u : UserAppCallbackClass) : String := "The meaning of life is: "

end UserAppCallbackClass

/-! ## Helper functions -/

/-- The record `CapsInfo`. -/
structure CapsInfo where
  format : String
  width : Int
  height : Int
deriving DecidableEq, Repr

/-- The function `get_caps_from_pad`. The declaration `CapsInfo info;` default-initialises
the record: the string member is empty, the two `int` members have no initialiser and keep
whatever their storage holds; those two values are the parameters `stack_width` and
`stack_height`. `gst_structure_get_int` writes its target only when the field is present. -/
def get_caps_from_pad (stack_width stack_height : Int) (pad : GstPad) : CapsInfo :=
  let info : CapsInfo := ⟨"", stack_width, stack_height⟩
  match pad.current_caps with
  | none => info
  | some caps =>
    match caps.head? with
    | none => info
    | some st =>
      let info : CapsInfo :=
        match st.format with
        | some format_str => { info with format := format_str }
        | none => info
      let info : CapsInfo :=
        match st.width with
        | some w => { info with width := w }
        | none => info
      let info : CapsInfo :=
        match st.height with
        | some h => { info with height := h }
        | none => info
      info

/-- The function `get_numpy_from_buffer`. -/
def get_numpy_from_buffer (cv : OpenCV) (buffer : GstBuffer) (format : String)
    (width height : Int) : Except CvError Mat :=
  match buffer.mapped with
  | none => .ok Mat.blank
  | some data =>
    if format = "RGB" then
      (Mat.ofData height width 3 data).map Mat.clone
    else if format = "BGR" then
      (Mat.ofData height width 3 data).map Mat.clone
    else if format = "RGBA" then
      (Mat.ofData height width 4 data).map
        (fun temp => cv.cvtColor temp ColorConversionCodes.COLOR_RGBA2RGB)
    else if format = "YUY2" ∨ format = "YUYV" then
      (Mat.ofData height width 2 data).map
        (fun temp => cv.cvtColor temp ColorConversionCodes.COLOR_YUV2RGB_YUY2)
    else
      (Mat.ofData height width 3 data).map Mat.clone

/-! ## The callback, block by block -/

/-- The state of the metadata loops: the flag and the text so far, and, for the theorems
only, two logs: `visited`, the type names of the records `gst_buffer_iterate_meta` has
handed out, and `reported`, the type names that have been appended to the text. -/
structure ScanState where
  found_hailo_meta : Bool
  string_to_print : String
  visited : List String
  reported : List String
deriving DecidableEq, Repr

/-- The first `while` loop of `app_callback` (lines 117 to 127), one iteration per record
that `gst_buffer_iterate_meta` returns. -/
def scan_meta : List GstMeta → ScanState → ScanState
  | [], s => s
  | m :: rest, s =>
    let meta_name := m.api_name
    if ( g_str_has_prefix meta_name "Hailo") || g_str_has_suffix meta_name "hailo" then
      scan_meta rest
        { found_hailo_meta := true
          string_to_print :=
            (s.string_to_print ++ ("Found Hailo metadata: " ++ meta_name ++ "\n"))
              ++ "  -> Processing Hailo metadata for detections\n"
          visited := s.visited ++ [meta_name]
          reported := s.reported ++ [meta_name] }
    else
      scan_meta rest { s with visited := s.visited ++ [meta_name] }

/-- The second `while` loop of `app_callback` (lines 136 to 139). -/
def list_meta : List GstMeta → ScanState → ScanState
  | [], s => s
  | m :: rest, s =>
    let meta_name := m.api_name
    list_meta rest
      { s with
        string_to_print := s.string_to_print ++ (meta_name ++ " ")
        visited := s.visited ++ [meta_name]
        reported := s.reported ++ [meta_name] }

/-- Lines 129 to 141: the report printed when no record was recognised. -/
def report_missing (metas : List GstMeta) (s : ScanState) : ScanState :=
  if s.found_hailo_meta = false then
    let text := s.string_to_print ++ "No Hailo metadata found in buffer\n"
    let text := text ++ "Available metadata types: "
    let r := list_meta metas { s with string_to_print := text }
    { r with string_to_print := r.string_to_print ++ "\n" }
  else s

/-- Lines 143 to 162: the simulated detections, on the text and the detection count. -/
def simulate (count : Int) (string_to_print : String) (detection_count : Int) :
    String × Int :=
  if detection_count = 0 then
    let frame_mod := Int.tmod count 20
    let r : String × Int :=
      if frame_mod < 5 then
        (string_to_print ++ "SIMULATED: Detection: ID: 1 Label: car Confidence: 0.85\n", 1)
      else if frame_mod < 8 then
        (string_to_print ++ "SIMULATED: Detection: ID: 2 Label: truck Confidence: 0.92\n", 1)
      else if frame_mod < 10 then
        (string_to_print ++ "SIMULATED: Detection: ID: 3 Label: motorcycle Confidence: 0.78\n", 1)
      else (string_to_print, detection_count)
    if frame_mod = 15 then
      ((r.1 ++ "SIMULATED: Detection: ID: 4 Label: car Confidence: 0.89\n")
        ++ "SIMULATED: Detection: ID: 5 Label: bus Confidence: 0.76\n", 2)
    else r
  else (string_to_print, detection_count)

/-- The name of the file written for frame count `count` (line 181). -/
def filename (count : Int) : String := "frame_" ++ to_string count ++ ".jpg"

/-- What the overlay block did: the user object afterwards, the frame handed to
`set_frame` and the `cv::imwrite` call, when they happened. -/
structure OverlayResult where
  user : UserAppCallbackClass
  set_frame : Option Mat
  imwrite : Option (String × Mat)
deriving DecidableEq, Repr

/-- Lines 164 to 184: the overlay, the colour swap, the stored frame and the periodic
save. -/
def overlay (cv : OpenCV) (user : UserAppCallbackClass) (caps_info : CapsInfo) (frame : Mat)
    (detection_count : Int) : OverlayResult :=
  if user.use_frame = true ∧ frame.empty = false then
    let frame := cv.putText frame ("Detections: " ++ to_string detection_count) 10 30
    let frame := cv.putText frame (user.new_function ++ to_string user.new_variable) 10 60
    let frame :=
      if caps_info.format = "RGB" then
        cv.cvtColor frame ColorConversionCodes.COLOR_RGB2BGR
      else frame
    let user := user.set_frame frame
    if Int.tmod user.get_count 30 = 0 then
      { user := user, set_frame := some frame, imwrite := some (filename user.get_count, frame) }
    else
      { user := user, set_frame := some frame, imwrite := none }
  else
    { user := user, set_frame := none, imwrite := none }

/-- Lines 103 to 107: the frame is decoded only when capture is on and the caps are
usable; otherwise it stays the default-constructed matrix. -/
def decode_frame (cv : OpenCV) (user : UserAppCallbackClass) (caps_info : CapsInfo)
    (buffer : GstBuffer) : Except CvError Mat :=
  if user.use_frame = true ∧ caps_info.format ≠ "" ∧ 0 < caps_info.width
      ∧ 0 < caps_info.height then
    get_numpy_from_buffer cv buffer caps_info.format caps_info.width caps_info.height
  else .ok Mat.blank

/-- Everything one call of `app_callback` receives besides the user object: the pad, the
probe info, and the contents of the storage that `get_caps_from_pad` leaves
uninitialised. -/
structure Invocation where
  pad : GstPad
  info : GstPadProbeInfo
  stack_width : Int
  stack_height : Int
deriving DecidableEq, Repr

/-- The values of the locals of `app_callback` in a call that got past the buffer check:
the caps, the frame as decoded (before the overlay draws on it), the scan flag, the
detection count and text at the end, and the two logs of the metadata loops. -/
structure Locals where
  caps_info : CapsInfo
  decoded : Mat
  found_hailo_meta : Bool
  detection_count : Int
  string_to_print : String
  visited : List String
  reported : List String
deriving DecidableEq, Repr

/-- The outcome of one call of `app_callback`: the user object afterwards, the value
returned, the text sent to `std::cout`, the `set_frame` and `cv::imwrite` calls, and the
locals (absent when the call returned at the buffer check). -/
structure CallbackResult where
  user : UserAppCallbackClass
  ret : GstPadProbeReturn
  cout : String
  set_frame : Option Mat
  imwrite : Option (String × Mat)
  locals : Option Locals
deriving DecidableEq, Repr

/-- Lines 98 to 187 of `app_callback`, after the frame has been decoded. -/
def process_frame (cv : OpenCV) (user : UserAppCallbackClass) (caps_info : CapsInfo)
    (buffer : GstBuffer) (frame : Mat) : CallbackResult :=
  let string_to_print := "Frame count: " ++ to_string user.get_count ++ "\n"
  let detection_count : Int := 0
  let found_hailo_meta := false
  let s := scan_meta buffer.metas ⟨found_hailo_meta, string_to_print, [], []⟩
  let s := report_missing buffer.metas s
  let r := simulate user.get_count s.string_to_print detection_count
  let o := overlay cv user caps_info frame r.2
  { user := o.user
    ret := GstPadProbeReturn.GST_PAD_PROBE_OK
    cout := r.1 ++ "\n"
    set_frame := o.set_frame
    imwrite := o.imwrite
    locals := some ⟨caps_info, frame, s.found_hailo_meta, r.2, r.1, s.visited, s.reported⟩ }

/-- The function `app_callback`. An exception of the decoder leaves the function. -/
def app_callback (cv : OpenCV) (user : UserAppCallbackClass) (inv : Invocation) :
    Except CvError CallbackResult :=
  match inv.info.buffer with
  | none =>
    .ok { user := user, ret := GstPadProbeReturn.GST_PAD_PROBE_OK, cout := "",
          set_frame := none, imwrite := none, locals := none }
  | some buffer =>
    let user := user.increment
    let caps_info := get_caps_from_pad inv.stack_width inv.stack_height inv.pad
    match decode_frame cv user caps_info buffer with
    | .error e => .error e
    | .ok frame => .ok (process_frame cv user caps_info buffer frame)

/-- Consecutive calls of `app_callback` on one user object, as the pipeline makes them:
the user object after the last call and the outcomes in order. -/
def run (cv : OpenCV) : UserAppCallbackClass → List Invocation →
    Except CvError (UserAppCallbackClass × List CallbackResult)
  | user, [] => .ok (user, [])
  | user, inv :: rest =>
    match app_callback cv user inv with
    | .error e => .error e
    | .ok r =>
      match run cv r.user rest with
      | .error e => .error e
      | .ok (u, rs) => .ok (u, r :: rs)

/-! ## Definitions used to state the theorems -/

/-- A detection event of the specification: identifier, label and the confidence as the
decimal numeral that is printed. -/
structure DetectionEvent where
  id : Nat
  label : String
  confidence : String
deriving DecidableEq, Repr

/-- The line printed for a simulated detection event. -/
def detection_line (e : DetectionEvent) : String :=
  "SIMULATED: Detection: ID: " ++ toString e.id ++ " Label: " ++ e.label
    ++ " Confidence: " ++ e.confidence ++ "\n"

/-- The table of the specification (section 4.4): the events for `m = frameCount mod 20`. -/
def detection_table (m : Int) : List DetectionEvent :=
  if 0 ≤ m ∧ m < 5 then [⟨1, "car", "0.85"⟩]
  else if 5 ≤ m ∧ m < 8 then [⟨2, "truck", "0.92"⟩]
  else if 8 ≤ m ∧ m < 10 then [⟨3, "motorcycle", "0.78"⟩]
  else if m = 15 then [⟨4, "car", "0.89"⟩, ⟨5, "bus", "0.76"⟩]
  else []

/-- Concatenation of a list of strings, in order. -/
def concat : List String → String
  | [] => ""
  | x :: xs => x ++ concat xs

/-- The test of line 120 on one type name. -/
def is_hailo_name (name : String) : Bool :=
  ( g_str_has_prefix name "Hailo") || g_str_has_suffix name "hailo"

/-- The two lines the first loop prints for a recognised record. -/
def found_lines (name : String) : String :=
  "Found Hailo metadata: " ++ name ++ "\n" ++ "  -> Processing Hailo metadata for detections\n"

/-- The type names of the records attached to a buffer, in attachment order. -/
def type_names (buffer : GstBuffer) : List String := buffer.metas.map (·.api_name)

/-- The number a list of decimal digit characters denotes. -/
def digits_value (l : List Char) : Nat := l.foldl (fun a c => a * 10 + (c.toNat - 48)) 0

/-- The invocation carries a buffer. -/
def carries_buffer (inv : Invocation) : Bool := inv.info.buffer.isSome

/-- The caps that `app_callback` resolves in an invocation (line 101). -/
def resolved_caps (inv : Invocation) : CapsInfo :=
  get_caps_from_pad inv.stack_width inv.stack_height inv.pad

/-- The invocation is one in which the overlay is rendered when capture is enabled: it
carries a buffer, the resolved caps are valid, and the buffer decodes to a non-empty
image. -/
def RendersOverlay (cv : OpenCV) (inv : Invocation) : Prop :=
  ∃ buffer frame, inv.info.buffer = some buffer
    ∧ (resolved_caps inv).format ≠ "" ∧ 0 < (resolved_caps inv).width
    ∧ 0 < (resolved_caps inv).height
    ∧ get_numpy_from_buffer cv buffer (resolved_caps inv).format (resolved_caps inv).width
        (resolved_caps inv).height = .ok frame
    ∧ frame.empty = false

/-- The frame after the overlay block has drawn its two texts on it (lines 166 to 170). -/
def drawn (cv : OpenCV) (user : UserAppCallbackClass) (frame : Mat) (detection_count : Int) :
    Mat :=
  cv.putText (cv.putText frame ("Detections: " ++ to_string detection_count) 10 30)
    (user.new_function ++ to_string user.new_variable) 10 60

/-- What the theorems observe of one outcome: the frame count after the call, the
detection count, and the name of the file written. -/
def summary (r : CallbackResult) : Int × Option Int × Option String :=
  (r.user.frame_count, r.locals.map (·.detection_count), r.imwrite.map (·.1))

/-- The summary of an invocation that renders the overlay at frame count `k`. -/
def expected (k : Int) : Int × Option Int × Option String :=
  (k, some (simulate k "" 0).2, if k % 30 = 0 then some (filename k) else none)

/-- The summaries of `n` consecutive rendering invocations after frame count `c`. -/
def expected_from (c : Int) : Nat → List (Int × Option Int × Option String)
  | 0 => []
  | n + 1 => expected (c + 1) :: expected_from (c + 1) n

/-- The names of the files written in a run, in order. -/
def saved_names (rs : List CallbackResult) : List String :=
  rs.filterMap (fun r => r.imwrite.map (·.1))

/-- The text the two metadata loops add for a buffer whose records have the given type
names: the lines of the recognised records, or else the listing of all type names. -/
def scan_report (names : List String) : String :=
  if names.any is_hailo_name = true then
    concat ((names.filter is_hailo_name).map found_lines)
  else
    "No Hailo metadata found in buffer\n" ++ "Available metadata types: "
      ++ concat (names.map (fun n => n ++ " ")) ++ "\n"

/-- Exchange of the first and third byte of every pixel of a packed three-channel row. -/
def swap_channels : List Nat → List Nat
  | r :: g :: b :: rest => b :: g :: r :: swap_channels rest
  | l => l

/-- A stand-in for the OpenCV routines, used only to evaluate the model on concrete
inputs: the channel swap is carried out, the two decoder conversions relabel the channel
count, and `putText` leaves the pixels as they are. -/
def sample_cv : OpenCV :=
  { cvtColor := fun m code =>
      match code with
      | ColorConversionCodes.COLOR_RGB2BGR => { m with data := swap_channels m.data }
      | ColorConversionCodes.COLOR_RGBA2RGB => { m with channels := 3 }
      | ColorConversionCodes.COLOR_YUV2RGB_YUY2 => { m with channels := 3 }
    putText := fun m _ _ _ => m }

/-- A pad whose caps describe a 2 by 2 stream of the given format. -/
def sample_pad (format : String) : GstPad := ⟨some [⟨some format, some 2, some 2⟩]⟩

/-- A mappable buffer of twelve bytes with records of the given type names. -/
def sample_buffer (names : List String) : GstBuffer :=
  ⟨names.map GstMeta.mk, some [1, 2, 3, 4, 5, 6, 7, 8, 9, 10, 11, 12]⟩

/-- An invocation on a 2 by 2 frame of the given format and record type names. -/
def sample_call (format : String) (names : List String) : Invocation :=
  ⟨sample_pad format, ⟨some (sample_buffer names)⟩, 7, 9⟩

/-- An invocation whose probe info carries no buffer. -/
def no_buffer_call : Invocation := ⟨sample_pad "RGB", ⟨none⟩, 7, 9⟩

/-- The user object as `main` creates it. -/
def initial_user : UserAppCallbackClass := {}

/-- A frame of the end-to-end scenario: caps `RGB` 64 by 64, a mappable buffer with the
given bytes and no attached record. -/
def scenario_call (data : List Nat) : Invocation :=
  ⟨⟨some [⟨some "RGB", some 64, some 64⟩]⟩, ⟨some ⟨[], some data⟩⟩, 0, 0⟩

/-! ## Lemmas -/

theorem string_eq_of_data {a b : String} (h : a.data = b.data) : a = b := by
  cases a; cases b; simp_all

theorem detection_line_eval :
    detection_line ⟨1, "car", "0.85"⟩ = "SIMULATED: Detection: ID: 1 Label: car Confidence: 0.85\n"
    ∧ detection_line ⟨2, "truck", "0.92"⟩
        = "SIMULATED: Detection: ID: 2 Label: truck Confidence: 0.92\n"
    ∧ detection_line ⟨3, "motorcycle", "0.78"⟩
        = "SIMULATED: Detection: ID: 3 Label: motorcycle Confidence: 0.78\n"
    ∧ detection_line ⟨4, "car", "0.89"⟩ = "SIMULATED: Detection: ID: 4 Label: car Confidence: 0.89\n"
    ∧ detection_line ⟨5, "bus", "0.76"⟩
        = "SIMULATED: Detection: ID: 5 Label: bus Confidence: 0.76\n" := by
  decide

theorem simulate_table (n : Int) (hn : 0 ≤ n) (s : String) :
    simulate n s 0
      = (s ++ concat ((detection_table (n % 20)).map detection_line),
          ((detection_table (n % 20)).length : Int)) := by
  have htm : Int.tmod n 20 = n % 20 := Int.tmod_eq_emod hn (by decide)
  have h1 : 0 ≤ n % 20 := Int.emod_nonneg _ (by decide)
  have h2 : n % 20 < 20 := Int.emod_lt_of_pos _ (by decide)
  unfold simulate
  simp only [htm, if_true]
  generalize n % 20 = m at h1 h2
  obtain ⟨e1, e2, e3, e4, e5⟩ := detection_line_eval
  interval_cases m <;>
    simp [detection_table, concat, e1, e2, e3, e4, e5, String.append_assoc]

theorem has_prefix_iff (name pre : String) :
    ( g_str_has_prefix name pre) = true ↔ ∃ t : String, name = pre ++ t := by
  unfold g_str_has_prefix
  rw [List.isPrefixOf_iff_prefix]
  constructor
  · rintro ⟨t, ht⟩
    exact ⟨⟨t⟩, string_eq_of_data (by simp [String.data_append, ht])⟩
  · rintro ⟨t, rfl⟩
    exact ⟨t.data, by simp [String.data_append]⟩

theorem has_suffix_iff (name suf : String) :
    g_str_has_suffix name suf = true ↔ ∃ t : String, name = t ++ suf := by
  unfold g_str_has_suffix
  rw [List.isSuffixOf_iff_suffix]
  constructor
  · rintro ⟨t, ht⟩
    exact ⟨⟨t⟩, string_eq_of_data (by simp [String.data_append, ht])⟩
  · rintro ⟨t, rfl⟩
    exact ⟨t.data, by simp [String.data_append]⟩

theorem is_hailo_name_iff (name : String) :
    is_hailo_name name = true
      ↔ (∃ t : String, name = "Hailo" ++ t) ∨ (∃ t : String, name = t ++ "hailo") := by
  unfold is_hailo_name
  rw [Bool.or_eq_true, has_prefix_iff, has_suffix_iff]

theorem scan_meta_eq (metas : List GstMeta) (s : ScanState) :
    scan_meta metas s =
      { found_hailo_meta := s.found_hailo_meta || metas.any (fun m => is_hailo_name m.api_name)
        string_to_print := s.string_to_print
          ++ concat (((metas.map (·.api_name)).filter is_hailo_name).map found_lines)
        visited := s.visited ++ metas.map (·.api_name)
        reported := s.reported ++ (metas.map (·.api_name)).filter is_hailo_name } := by
  induction metas generalizing s with
  | nil => cases s; simp [scan_meta, concat]
  | cons m rest ih =>
    unfold scan_meta
    by_cases h : is_hailo_name m.api_name = true
    · have h2 : (( g_str_has_prefix m.api_name "Hailo")
          || g_str_has_suffix m.api_name "hailo") = true := h
      rw [if_pos h2, ih]
      simp [h, concat, found_lines, String.append_assoc]
    · have h2 : ¬ ((( g_str_has_prefix m.api_name "Hailo")
          || g_str_has_suffix m.api_name "hailo") = true) := h
      rw [if_neg h2, ih]
      simp [h, concat, found_lines, String.append_assoc]

theorem list_meta_eq (metas : List GstMeta) (s : ScanState) :
    list_meta metas s =
      { s with
        string_to_print := s.string_to_print
          ++ concat ((metas.map (·.api_name)).map (fun n => n ++ " "))
        visited := s.visited ++ metas.map (·.api_name)
        reported := s.reported ++ metas.map (·.api_name) } := by
  induction metas generalizing s with
  | nil => cases s; simp [list_meta, concat]
  | cons m rest ih =>
    unfold list_meta
    rw [ih]
    simp [concat, String.append_assoc]

theorem digitChar_value (d : Nat) (h : d < 10) : (Nat.digitChar d).toNat - 48 = d := by
  interval_cases d <;> rfl

theorem toDigitsCore_append (fuel n : Nat) (ds : List Char) :
    Nat.toDigitsCore 10 fuel n ds = Nat.toDigitsCore 10 fuel n [] ++ ds := by
  induction fuel generalizing n ds with
  | zero => simp [Nat.toDigitsCore]
  | succ fuel ih =>
    unfold Nat.toDigitsCore
    by_cases h : n / 10 = 0
    · simp [h]
    · simp only [h, if_false]
      rw [ih (n / 10) (Nat.digitChar (n % 10) :: ds), ih (n / 10) [Nat.digitChar (n % 10)]]
      simp

theorem digits_value_toDigitsCore (fuel n : Nat) (h : n < fuel) :
    digits_value (Nat.toDigitsCore 10 fuel n []) = n := by
  induction fuel generalizing n with
  | zero => omega
  | succ fuel ih =>
    unfold Nat.toDigitsCore
    by_cases h0 : n / 10 = 0
    · simp only [h0, if_true]
      have : n < 10 := by omega
      simp [digits_value, digitChar_value (n % 10) (by omega)]
      omega
    · simp only [h0, if_false]
      rw [toDigitsCore_append]
      have hlt : n / 10 < fuel := by omega
      have := ih (n / 10) hlt
      unfold digits_value at this ⊢
      rw [List.foldl_append, this]
      simp [digitChar_value (n % 10) (by omega)]
      omega

theorem nat_repr_injective (a b : Nat) (h : Nat.repr a = Nat.repr b) : a = b := by
  have h2 : Nat.toDigits 10 a = Nat.toDigits 10 b := by
    have := congrArg String.data h
    simpa [Nat.repr, List.asString] using this
  have ha := digits_value_toDigitsCore (a + 1) a (by omega)
  have hb := digits_value_toDigitsCore (b + 1) b (by omega)
  unfold Nat.toDigits at h2
  rw [h2] at ha
  omega

theorem to_string_injective (a b : Int) (ha : 0 ≤ a) (hb : 0 ≤ b)
    (h : to_string a = to_string b) : a = b := by
  obtain ⟨x, rfl⟩ := Int.eq_ofNat_of_zero_le ha
  obtain ⟨y, rfl⟩ := Int.eq_ofNat_of_zero_le hb
  have : Nat.repr x = Nat.repr y := h
  rw [nat_repr_injective x y this]

theorem filename_injective (a b : Int) (ha : 0 ≤ a) (hb : 0 ≤ b)
    (h : filename a = filename b) : a = b := by
  apply to_string_injective a b ha hb
  unfold filename at h
  have := congrArg String.data h
  simp only [String.data_append, List.append_assoc] at this
  have h2 := List.append_cancel_left this
  have h3 := List.append_cancel_right h2
  exact string_eq_of_data h3

theorem wrapInt_eq (x : Int) (h1 : -2147483648 ≤ x) (h2 : x ≤ 2147483647) : wrapInt x = x := by
  unfold wrapInt; omega

theorem ofData_ok (rows cols : Int) (ch : Nat) (data : List Nat) (hr : 0 ≤ rows) (hc : 0 ≤ cols) :
    Mat.ofData rows cols ch data
      = .ok ⟨rows, cols, ch, data.take (rows * cols * ch).toNat⟩ := by
  unfold Mat.ofData
  rw [if_neg (by omega)]

theorem get_numpy_ok (cv : OpenCV) (buffer : GstBuffer) (format : String) (w h : Int)
    (hw : 0 ≤ w) (hh : 0 ≤ h) : ∃ frame, get_numpy_from_buffer cv buffer format w h = .ok frame := by
  unfold get_numpy_from_buffer
  cases buffer.mapped with
  | none => exact ⟨_, rfl⟩
  | some data =>
    simp only [ofData_ok h w _ data hh hw]
    split_ifs <;> exact ⟨_, rfl⟩

theorem decode_frame_ok (cv : OpenCV) (user : UserAppCallbackClass) (caps : CapsInfo)
    (buffer : GstBuffer) : ∃ frame, decode_frame cv user caps buffer = .ok frame := by
  unfold decode_frame
  split_ifs with h
  · exact get_numpy_ok cv buffer _ _ _ (le_of_lt h.2.2.1) (le_of_lt h.2.2.2)
  · exact ⟨_, rfl⟩

theorem app_callback_no_buffer (cv : OpenCV) (user : UserAppCallbackClass) (inv : Invocation)
    (h : inv.info.buffer = none) :
    app_callback cv user inv
      = .ok { user := user, ret := GstPadProbeReturn.GST_PAD_PROBE_OK, cout := "",
              set_frame := none, imwrite := none, locals := none } := by
  unfold app_callback
  rw [h]

theorem app_callback_buffer (cv : OpenCV) (user : UserAppCallbackClass) (inv : Invocation)
    (buffer : GstBuffer) (h : inv.info.buffer = some buffer) :
    ∃ frame, decode_frame cv user.increment (resolved_caps inv) buffer = .ok frame
      ∧ app_callback cv user inv
          = .ok (process_frame cv user.increment (resolved_caps inv) buffer frame) := by
  obtain ⟨frame, hf⟩ := decode_frame_ok cv user.increment (resolved_caps inv) buffer
  refine ⟨frame, hf, ?_⟩
  unfold app_callback
  rw [h]
  simp only
  unfold resolved_caps at hf
  rw [hf]
  rfl

theorem overlay_user (cv : OpenCV) (user : UserAppCallbackClass) (caps : CapsInfo) (frame : Mat)
    (d : Int) :
    (overlay cv user caps frame d).user.frame_count = user.frame_count
      ∧ (overlay cv user caps frame d).user.use_frame = user.use_frame
      ∧ (overlay cv user caps frame d).user.new_variable = user.new_variable := by
  unfold overlay
  dsimp only
  split_ifs <;> simp [UserAppCallbackClass.set_frame]

theorem process_frame_user (cv : OpenCV) (user : UserAppCallbackClass) (caps : CapsInfo)
    (buffer : GstBuffer) (frame : Mat) :
    (process_frame cv user caps buffer frame).user.frame_count = user.frame_count
      ∧ (process_frame cv user caps buffer frame).user.use_frame = user.use_frame := by
  unfold process_frame
  exact ⟨(overlay_user _ _ _ _ _).1, (overlay_user _ _ _ _ _).2.1⟩

theorem app_callback_total (cv : OpenCV) (user : UserAppCallbackClass) (inv : Invocation) :
    ∃ r, app_callback cv user inv = .ok r
      ∧ r.user.frame_count
          = (if carries_buffer inv = true then wrapInt (user.frame_count + 1) else user.frame_count)
      ∧ r.user.use_frame = user.use_frame
      ∧ r.ret = GstPadProbeReturn.GST_PAD_PROBE_OK := by
  cases hb : inv.info.buffer with
  | none =>
    refine ⟨_, app_callback_no_buffer cv user inv hb, ?_, rfl, rfl⟩
    simp [carries_buffer, hb]
  | some buffer =>
    obtain ⟨frame, -, hr⟩ := app_callback_buffer cv user inv buffer hb
    refine ⟨_, hr, ?_, ?_, rfl⟩
    · rw [(process_frame_user _ _ _ _ _).1]
      simp [carries_buffer, hb, UserAppCallbackClass.increment]
    · rw [(process_frame_user _ _ _ _ _).2]
      rfl

theorem run_frame_count (cv : OpenCV) (invs : List Invocation) (user : UserAppCallbackClass)
    (hlo : 0 ≤ user.frame_count)
    (hhi : user.frame_count + ((invs.filter carries_buffer).length : Int) ≤ INT_MAX) :
    ∃ u rs, run cv user invs = .ok (u, rs) ∧ rs.length = invs.length
      ∧ u.frame_count = user.frame_count + ((invs.filter carries_buffer).length : Int) := by
  induction invs generalizing user with
  | nil => exact ⟨user, [], rfl, rfl, by simp⟩
  | cons inv rest ih =>
    obtain ⟨r, hr, hcnt, -, -⟩ := app_callback_total cv user inv
    unfold INT_MAX at hhi
    by_cases hb : carries_buffer inv = true
    · simp only [List.filter_cons, hb, if_true, List.length_cons, Nat.cast_add, Nat.cast_one] at hhi
      rw [if_pos hb, wrapInt_eq _ (by omega) (by omega)] at hcnt
      obtain ⟨u, rs, hrun, hlen, hu⟩ := ih r.user (by omega) (by unfold INT_MAX; omega)
      refine ⟨u, r :: rs, ?_, by simp [hlen], ?_⟩
      · unfold run; rw [hr]; simp only; rw [hrun]
      · rw [hu, hcnt]; simp [List.filter_cons, hb]; ring
    · simp only [List.filter_cons, hb] at hhi
      rw [if_neg hb] at hcnt
      obtain ⟨u, rs, hrun, hlen, hu⟩ := ih r.user (by omega) (by unfold INT_MAX; simpa [hcnt] using hhi)
      refine ⟨u, r :: rs, ?_, by simp [hlen], ?_⟩
      · unfold run; rw [hr]; simp only; rw [hrun]
      · rw [hu, hcnt]; simp [List.filter_cons, hb]

theorem tmod_30 (k : Int) : Int.tmod k 30 = 0 ↔ k % 30 = 0 := by
  rw [← Int.dvd_iff_tmod_eq_zero, ← Int.dvd_iff_emod_eq_zero]

theorem simulate_text (n : Int) (s : String) :
    simulate n s 0 = (s ++ (simulate n "" 0).1, (simulate n "" 0).2) := by
  unfold simulate
  dsimp only
  split_ifs <;> simp [String.append_assoc]

theorem overlay_rendered (cv : OpenCV) (user : UserAppCallbackClass) (caps : CapsInfo)
    (frame : Mat) (d : Int) (hu : user.use_frame = true) (hf : frame.empty = false) :
    overlay cv user caps frame d =
      { user := user.set_frame
          (if caps.format = "RGB" then
            cv.cvtColor (drawn cv user frame d) ColorConversionCodes.COLOR_RGB2BGR
           else drawn cv user frame d)
        set_frame := some
          (if caps.format = "RGB" then
            cv.cvtColor (drawn cv user frame d) ColorConversionCodes.COLOR_RGB2BGR
           else drawn cv user frame d)
        imwrite :=
          if user.frame_count % 30 = 0 then
            some (filename user.frame_count,
              if caps.format = "RGB" then
                cv.cvtColor (drawn cv user frame d) ColorConversionCodes.COLOR_RGB2BGR
              else drawn cv user frame d)
          else none } := by
  unfold overlay
  rw [if_pos ⟨hu, hf⟩]
  dsimp only
  simp only [tmod_30, UserAppCallbackClass.get_count, UserAppCallbackClass.set_frame, drawn]
  split_ifs <;> rfl

theorem overlay_skipped (cv : OpenCV) (user : UserAppCallbackClass) (caps : CapsInfo)
    (frame : Mat) (d : Int) (h : ¬ (user.use_frame = true ∧ frame.empty = false)) :
    overlay cv user caps frame d = { user := user, set_frame := none, imwrite := none } := by
  unfold overlay
  rw [if_neg h]

theorem decode_frame_renders (cv : OpenCV) (user : UserAppCallbackClass) (inv : Invocation)
    (buffer : GstBuffer) (frame : Mat) (hu : user.use_frame = true)
    (h1 : (resolved_caps inv).format ≠ "") (h2 : 0 < (resolved_caps inv).width)
    (h3 : 0 < (resolved_caps inv).height)
    (h4 : get_numpy_from_buffer cv buffer (resolved_caps inv).format (resolved_caps inv).width
        (resolved_caps inv).height = .ok frame) :
    decode_frame cv user (resolved_caps inv) buffer = .ok frame := by
  unfold decode_frame
  rw [if_pos ⟨hu, h1, h2, h3⟩, h4]

theorem app_callback_renders (cv : OpenCV) (user : UserAppCallbackClass) (inv : Invocation)
    (hu : user.use_frame = true) (hr : RendersOverlay cv inv) :
    ∃ r, app_callback cv user inv = .ok r
      ∧ r.user.use_frame = true
      ∧ summary r = expected (wrapInt (user.frame_count + 1)) := by
  obtain ⟨buffer, frame, hb, h1, h2, h3, h4, h5⟩ := hr
  obtain ⟨frame2, hd, hr⟩ := app_callback_buffer cv user inv buffer hb
  have hu2 : user.increment.use_frame = true := hu
  rw [decode_frame_renders cv user.increment inv buffer frame hu2 h1 h2 h3 h4] at hd
  cases hd
  refine ⟨_, hr, ?_, ?_⟩
  · rw [(process_frame_user _ _ _ _ _).2]; exact hu
  · unfold summary expected process_frame
    dsimp only
    rw [overlay_rendered cv user.increment _ frame _ hu2 h5]
    rw [simulate_text]
    simp only [UserAppCallbackClass.get_count, UserAppCallbackClass.increment,
      UserAppCallbackClass.set_frame, Option.map_some']
    split_ifs <;> simp

theorem run_renders (cv : OpenCV) (invs : List Invocation) (user : UserAppCallbackClass)
    (hu : user.use_frame = true) (hlo : 0 ≤ user.frame_count)
    (hhi : user.frame_count + (invs.length : Int) ≤ INT_MAX)
    (hr : ∀ inv ∈ invs, RendersOverlay cv inv) :
    ∃ u rs, run cv user invs = .ok (u, rs)
      ∧ u.frame_count = user.frame_count + (invs.length : Int)
      ∧ rs.map summary = expected_from user.frame_count invs.length := by
  induction invs generalizing user with
  | nil => exact ⟨user, [], rfl, by simp, rfl⟩
  | cons inv rest ih =>
    obtain ⟨r, hr1, hru, hrs⟩ := app_callback_renders cv user inv hu (hr inv (by simp))
    unfold INT_MAX at hhi
    simp only [List.length_cons, Nat.cast_add, Nat.cast_one] at hhi
    rw [wrapInt_eq _ (by omega) (by omega)] at hrs
    have hcnt : r.user.frame_count = user.frame_count + 1 := by
      have := congrArg Prod.fst hrs
      simpa [summary, expected] using this
    obtain ⟨u, rs, hrun, hcount, hsum⟩ := ih r.user hru (by omega) (by unfold INT_MAX; omega)
      (fun i hi => hr i (by simp [hi]))
    refine ⟨u, r :: rs, ?_, ?_, ?_⟩
    · unfold run; rw [hr1]; simp only; rw [hrun]
    · rw [hcount, hcnt]; simp; ring
    · simp only [List.map_cons, List.length_cons, expected_from, hrs, hsum, hcnt]

theorem expected_from_mem (c : Int) (n : Nat) (x : Int × Option Int × Option String)
    (h : x ∈ expected_from c n) : ∃ k, c < k ∧ k ≤ c + n ∧ x = expected k := by
  induction n generalizing c with
  | zero => simp [expected_from] at h
  | succ n ih =>
    simp only [expected_from, List.mem_cons] at h
    rcases h with h | h
    · exact ⟨c + 1, by omega, by push_cast; omega, h⟩
    · obtain ⟨k, h1, h2, h3⟩ := ih (c + 1) h
      exact ⟨k, by omega, by push_cast; omega, h3⟩

theorem expected_from_length (c : Int) (n : Nat) : (expected_from c n).length = n := by
  induction n generalizing c with
  | zero => rfl
  | succ n ih => simp [expected_from, ih]

theorem expected_from_saved_length (c : Int) (n : Nat) (hc : 0 ≤ c) :
    ((((expected_from c n).filterMap (fun x => x.2.2)).length : Nat) : Int)
      = (c + n) / 30 - c / 30 := by
  induction n generalizing c with
  | zero => simp [expected_from]
  | succ n ih =>
    have := ih (c + 1) (by omega)
    by_cases h : (c + 1) % 30 = 0
    · simp only [expected_from, expected, h, if_true, List.filterMap_cons, List.length_cons]
      push_cast
      rw [this]
      omega
    · simp only [expected_from, expected, h, if_false, List.filterMap_cons]
      push_cast
      rw [this]
      omega

theorem expected_from_saved_nodup (c : Int) (n : Nat) (hc : 0 ≤ c) :
    ((expected_from c n).filterMap (fun x => x.2.2)).Nodup := by
  induction n generalizing c with
  | zero => simp [expected_from]
  | succ n ih =>
    have hn := ih (c + 1) (by omega)
    by_cases h : (c + 1) % 30 = 0
    · simp only [expected_from, expected, h, if_true, List.filterMap_cons, List.nodup_cons]
      refine ⟨?_, hn⟩
      intro hmem
      obtain ⟨x, hx, hx2⟩ := List.mem_filterMap.mp hmem
      obtain ⟨k, h1, -, rfl⟩ := expected_from_mem _ _ _ hx
      unfold expected at hx2
      dsimp only at hx2
      split_ifs at hx2
      have := filename_injective k (c + 1) (by omega) (by omega) (Option.some.inj hx2)
      omega
    · simp only [expected_from, expected, h, if_false, List.filterMap_cons]
      exact hn

theorem saved_names_eq (rs : List CallbackResult) :
    saved_names rs = (rs.map summary).filterMap (fun x => x.2.2) := by
  unfold saved_names
  rw [List.filterMap_map]
  rfl

theorem any_map_names (metas : List GstMeta) :
    metas.any (fun m => is_hailo_name m.api_name) = (metas.map (·.api_name)).any is_hailo_name := by
  induction metas with
  | nil => rfl
  | cons m rest ih => simp [List.any_cons, ih]

theorem scan_report_eq (metas : List GstMeta) (header : String) :
    report_missing metas (scan_meta metas ⟨false, header, [], []⟩) =
      { found_hailo_meta := (metas.map (·.api_name)).any is_hailo_name
        string_to_print := header ++ scan_report (metas.map (·.api_name))
        visited :=
          if (metas.map (·.api_name)).any is_hailo_name = true then metas.map (·.api_name)
          else metas.map (·.api_name) ++ metas.map (·.api_name)
        reported :=
          if (metas.map (·.api_name)).any is_hailo_name = true then
            (metas.map (·.api_name)).filter is_hailo_name
          else metas.map (·.api_name) } := by
  rw [scan_meta_eq, any_map_names]
  unfold report_missing scan_report
  by_cases h : (metas.map (·.api_name)).any is_hailo_name = true
  · simp only [h, Bool.false_or, if_true]
    rw [if_neg (by simp)]
    simp
  · have hf : (metas.map (·.api_name)).any is_hailo_name = false := by simpa using h
    have hfil : (metas.map (·.api_name)).filter is_hailo_name = [] := by
      rw [List.filter_eq_nil_iff]
      intro a ha
      rw [List.any_eq_false] at hf
      exact hf a ha
    simp only [hf, Bool.false_or, if_true, list_meta_eq, hfil]
    simp [concat, String.append_assoc]

theorem process_frame_locals (cv : OpenCV) (user : UserAppCallbackClass) (caps : CapsInfo)
    (buffer : GstBuffer) (frame : Mat) :
    (process_frame cv user caps buffer frame).locals = some
      { caps_info := caps
        decoded := frame
        found_hailo_meta := (type_names buffer).any is_hailo_name
        detection_count := (simulate user.frame_count "" 0).2
        string_to_print := "Frame count: " ++ to_string user.frame_count ++ "\n"
          ++ scan_report (type_names buffer) ++ (simulate user.frame_count "" 0).1
        visited :=
          if (type_names buffer).any is_hailo_name = true then type_names buffer
          else type_names buffer ++ type_names buffer
        reported :=
          if (type_names buffer).any is_hailo_name = true then
            (type_names buffer).filter is_hailo_name
          else type_names buffer } := by
  unfold process_frame
  dsimp only
  rw [scan_report_eq, simulate_text]
  rfl

theorem app_callback_locals (cv : OpenCV) (user : UserAppCallbackClass) (inv : Invocation)
    (buffer : GstBuffer) (h : inv.info.buffer = some buffer) :
    ∃ r frame, app_callback cv user inv = .ok r
      ∧ r.user.frame_count = wrapInt (user.frame_count + 1)
      ∧ r.locals = some
        { caps_info := resolved_caps inv
          decoded := frame
          found_hailo_meta := (type_names buffer).any is_hailo_name
          detection_count := (simulate (wrapInt (user.frame_count + 1)) "" 0).2
          string_to_print := "Frame count: " ++ to_string (wrapInt (user.frame_count + 1)) ++ "\n"
            ++ scan_report (type_names buffer)
            ++ (simulate (wrapInt (user.frame_count + 1)) "" 0).1
          visited :=
            if (type_names buffer).any is_hailo_name = true then type_names buffer
            else type_names buffer ++ type_names buffer
          reported :=
            if (type_names buffer).any is_hailo_name = true then
              (type_names buffer).filter is_hailo_name
            else type_names buffer } := by
  obtain ⟨frame, -, hr⟩ := app_callback_buffer cv user inv buffer h
  refine ⟨_, frame, hr, ?_, ?_⟩
  · rw [(process_frame_user _ _ _ _ _).1]; rfl
  · rw [process_frame_locals]; rfl

/-- C1: for every post-increment frame count `n >= 0`, the simulated detections of
`app_callback` are exactly the events of the table for `m = n mod 20` (one car event for
`0 <= m < 5`, one truck event for `5 <= m < 8`, one motorcycle event for `8 <= m < 10`,
the car and bus events for `m = 15`, nothing otherwise): the simulation block appends
exactly their lines, and in every invocation that carries a buffer the detection count is
the number of events of the table and the printed text ends with their lines. -/
theorem detection_table_correct (cv : OpenCV) (user : UserAppCallbackClass) (inv : Invocation)
    (buffer : GstBuffer) (n : Int) (hb : inv.info.buffer = some buffer) (hn : 0 ≤ n)
    (hcount : wrapInt (user.frame_count + 1) = n) :
    (∀ s : String, simulate n s 0
        = (s ++ concat ((detection_table (n % 20)).map detection_line),
            ((detection_table (n % 20)).length : Int)))
    ∧ ∃ r l, app_callback cv user inv = .ok r ∧ r.user.frame_count = n ∧ r.locals = some l
        ∧ l.detection_count = ((detection_table (n % 20)).length : Int)
        ∧ l.string_to_print = "Frame count: " ++ to_string n ++ "\n"
            ++ scan_report (type_names buffer)
            ++ concat ((detection_table (n % 20)).map detection_line) := by
  refine ⟨fun s => simulate_table n hn s, ?_⟩
  obtain ⟨r, frame, hr, hc, hl⟩ := app_callback_locals cv user inv buffer hb
  rw [hcount] at hc hl
  refine ⟨r, _, hr, hc, hl, ?_, ?_⟩
  · simp [simulate_table n hn ""]
  · simp [simulate_table n hn ""]

/-- Witness of C1 at frame counts 3, 15 and 11: one event, two events, no event. -/
theorem detection_table_correct_witness :
    (∃ r l, app_callback sample_cv ⟨2, true, 42, Mat.blank⟩ (sample_call "RGB" []) = .ok r
        ∧ r.locals = some l ∧ l.detection_count = 1)
    ∧ (∃ r l, app_callback sample_cv ⟨14, true, 42, Mat.blank⟩ (sample_call "RGB" []) = .ok r
        ∧ r.locals = some l ∧ l.detection_count = 2)
    ∧ (∃ r l, app_callback sample_cv ⟨10, true, 42, Mat.blank⟩ (sample_call "RGB" []) = .ok r
        ∧ r.locals = some l ∧ l.detection_count = 0) := by
  refine ⟨?_, ?_, ?_⟩
  · obtain ⟨-, r, l, h1, -, h2, h3, -⟩ :=
      detection_table_correct sample_cv ⟨2, true, 42, Mat.blank⟩ (sample_call "RGB" [])
        (sample_buffer []) 3 rfl (by decide) (by decide)
    exact ⟨r, l, h1, h2, by rw [h3]; decide⟩
  · obtain ⟨-, r, l, h1, -, h2, h3, -⟩ :=
      detection_table_correct sample_cv ⟨14, true, 42, Mat.blank⟩ (sample_call "RGB" [])
        (sample_buffer []) 15 rfl (by decide) (by decide)
    exact ⟨r, l, h1, h2, by rw [h3]; decide⟩
  · obtain ⟨-, r, l, h1, -, h2, h3, -⟩ :=
      detection_table_correct sample_cv ⟨10, true, 42, Mat.blank⟩ (sample_call "RGB" [])
        (sample_buffer []) 11 rfl (by decide) (by decide)
    exact ⟨r, l, h1, h2, by rw [h3]; decide⟩

/-- C2, counterexample: on the first frame of a run, with a buffer whose only record has
the type name `HailoMeta`, the scan sets `found_hailo_meta`, and still the simulated car
detection is printed and the detection count is 1. -/
theorem simulation_ungated_counterexample :
    (app_callback sample_cv initial_user (sample_call "RGB" ["HailoMeta"])).map
      (fun r => r.locals.map (fun l => (l.found_hailo_meta, l.detection_count, l.string_to_print)))
    = .ok (some (true, 1,
        "Frame count: 1\nFound Hailo metadata: HailoMeta\n  -> Processing Hailo metadata for detections\nSIMULATED: Detection: ID: 1 Label: car Confidence: 0.85\n")) := by
  rfl

/-- C2, amended: the simulation is gated on the detection count being 0 when it is
reached, which no earlier step changes, and not on the scan: two invocations on the same
user object that both carry a buffer get the same detection count and the same simulated
lines after their scan text, whatever records the two buffers carry. -/
theorem simulation_independent_of_scan (cv : OpenCV) (user : UserAppCallbackClass)
    (inv inv2 : Invocation) (buffer buffer2 : GstBuffer)
    (hb : inv.info.buffer = some buffer) (hb2 : inv2.info.buffer = some buffer2) :
    ∃ r r2 l l2 sim, app_callback cv user inv = .ok r ∧ app_callback cv user inv2 = .ok r2
      ∧ r.locals = some l ∧ r2.locals = some l2
      ∧ l.found_hailo_meta = (type_names buffer).any is_hailo_name
      ∧ l2.found_hailo_meta = (type_names buffer2).any is_hailo_name
      ∧ l.detection_count = l2.detection_count
      ∧ (l.string_to_print, l.detection_count)
          = simulate r.user.frame_count ("Frame count: " ++ to_string r.user.frame_count ++ "\n"
              ++ scan_report (type_names buffer)) 0
      ∧ l.string_to_print = "Frame count: " ++ to_string r.user.frame_count ++ "\n"
          ++ scan_report (type_names buffer) ++ sim
      ∧ l2.string_to_print = "Frame count: " ++ to_string r2.user.frame_count ++ "\n"
          ++ scan_report (type_names buffer2) ++ sim := by
  obtain ⟨r, frame, hr, hc, hl⟩ := app_callback_locals cv user inv buffer hb
  obtain ⟨r2, frame2, hr2, hc2, hl2⟩ := app_callback_locals cv user inv2 buffer2 hb2
  refine ⟨r, r2, _, _, (simulate (wrapInt (user.frame_count + 1)) "" 0).1, hr, hr2, hl, hl2,
    rfl, rfl, rfl, ?_, ?_, ?_⟩
  · rw [hc]; exact (simulate_text _ _).symm
  · show _ = _; rw [hc]
  · show _ = _; rw [hc2]

/-- Witness of the amended C2: a buffer with a recognised record and a buffer without
records, on the first frame. -/
theorem simulation_independent_of_scan_witness :
    ∃ r r2 l l2, app_callback sample_cv initial_user (sample_call "RGB" ["HailoMeta"]) = .ok r
      ∧ app_callback sample_cv initial_user (sample_call "RGB" []) = .ok r2
      ∧ r.locals = some l ∧ r2.locals = some l2
      ∧ l.found_hailo_meta = true ∧ l2.found_hailo_meta = false
      ∧ l.detection_count = l2.detection_count := by
  obtain ⟨r, r2, l, l2, -, h1, h2, h3, h4, h5, h6, h7, -⟩ :=
    simulation_independent_of_scan sample_cv initial_user (sample_call "RGB" ["HailoMeta"])
      (sample_call "RGB" []) (sample_buffer ["HailoMeta"]) (sample_buffer []) rfl rfl
  exact ⟨r, r2, l, l2, h1, h2, h3, h4, by rw [h5]; decide, by rw [h6]; decide, h7⟩

/-- C3, counterexample: an invocation whose probe info carries no buffer returns at the
buffer check and leaves the counter at 0. -/
theorem frame_count_counterexample :
    (app_callback sample_cv initial_user no_buffer_call).map (fun r => r.user.frame_count)
      = .ok 0 := by
  rfl

/-- C3, amended: every invocation that carries a buffer increases `frame_count` by
exactly 1 and an invocation without a buffer leaves it unchanged, so that after any
sequence of invocations, started at a count `c >= 0` and staying within the range of
`int`, the counter is `c` plus the number of invocations that carried a buffer; started
at 0 with a buffer in each of the `N` invocations, it is exactly `N`. -/
theorem frame_count_after_run (cv : OpenCV) (user : UserAppCallbackClass)
    (invs : List Invocation) (hlo : 0 ≤ user.frame_count)
    (hhi : user.frame_count + ((invs.filter carries_buffer).length : Int) ≤ INT_MAX) :
    ∃ u rs, run cv user invs = .ok (u, rs) ∧ rs.length = invs.length
      ∧ u.frame_count = user.frame_count + ((invs.filter carries_buffer).length : Int)
      ∧ (user.frame_count = 0 → (∀ inv ∈ invs, carries_buffer inv = true)
          → u.frame_count = (invs.length : Int)) := by
  obtain ⟨u, rs, h1, h2, h3⟩ := run_frame_count cv invs user hlo hhi
  refine ⟨u, rs, h1, h2, h3, ?_⟩
  intro h0 hall
  rw [h3, h0, List.filter_eq_self.mpr hall]
  simp

/-- Witness of the amended C3: three invocations, the second without a buffer. -/
theorem frame_count_after_run_witness :
    ∃ u rs, run sample_cv initial_user
        [sample_call "RGB" [], no_buffer_call, sample_call "BGR" ["HailoMeta"]] = .ok (u, rs)
      ∧ u.frame_count = 2 := by
  obtain ⟨u, rs, h1, -, h3, -⟩ :=
    frame_count_after_run sample_cv initial_user
      [sample_call "RGB" [], no_buffer_call, sample_call "BGR" ["HailoMeta"]]
      (by decide) (by decide)
  exact ⟨u, rs, h1, by rw [h3]; decide⟩

/-- C6: in every invocation that carries a buffer, `found_hailo_meta` is true if and only
if some attached record has a type name that starts with `Hailo` or ends with `hailo`
(compared character by character, so case matters); it is false for a buffer without
records and for the type names `hailoMeta` and `GstHAILO`. -/
theorem found_hailo_meta_iff (cv : OpenCV) (user : UserAppCallbackClass) (inv : Invocation)
    (buffer : GstBuffer) (hb : inv.info.buffer = some buffer) :
    ∃ r l, app_callback cv user inv = .ok r ∧ r.locals = some l
      ∧ (l.found_hailo_meta = true
          ↔ ∃ name ∈ type_names buffer,
              (∃ t : String, name = "Hailo" ++ t) ∨ (∃ t : String, name = t ++ "hailo"))
      ∧ (type_names buffer = [] → l.found_hailo_meta = false)
      ∧ (type_names buffer = ["hailoMeta", "GstHAILO"] → l.found_hailo_meta = false) := by
  obtain ⟨r, frame, hr, -, hl⟩ := app_callback_locals cv user inv buffer hb
  refine ⟨r, _, hr, hl, ?_, ?_, ?_⟩
  · simp only [List.any_eq_true, is_hailo_name_iff]
  · intro h; simp [h]
  · intro h; show List.any _ _ = false; rw [h]; decide

/-- Witness of C6: one record named `GstVideoMeta`, one named `HailoMeta`. -/
theorem found_hailo_meta_iff_witness :
    ∃ r l, app_callback sample_cv initial_user (sample_call "RGB" ["GstVideoMeta", "HailoMeta"])
        = .ok r ∧ r.locals = some l ∧ l.found_hailo_meta = true := by
  obtain ⟨r, l, h1, h2, h3, -⟩ :=
    found_hailo_meta_iff sample_cv initial_user (sample_call "RGB" ["GstVideoMeta", "HailoMeta"])
      (sample_buffer ["GstVideoMeta", "HailoMeta"]) rfl
  exact ⟨r, l, h1, h2, h3.mpr ⟨"HailoMeta", by decide, Or.inl ⟨"Meta", by decide⟩⟩⟩

/-- C8, the code at the failing input: on a pad without negotiated caps, and on caps
without a structure, `get_caps_from_pad` returns the empty format together with whatever
the uninitialised `width` and `height` members held (7 and 9 here, not 0); a structure
that supplies only the format leaves them in the result as well. -/
theorem get_caps_from_pad_uninitialised :
    get_caps_from_pad 7 9 ⟨none⟩ = ⟨"", 7, 9⟩
    ∧ get_caps_from_pad 7 9 ⟨some []⟩ = ⟨"", 7, 9⟩
    ∧ get_caps_from_pad 7 9 ⟨some [⟨some "RGB", none, none⟩]⟩ = ⟨"RGB", 7, 9⟩
    ∧ ∀ w h : Int, get_caps_from_pad w h ⟨none⟩ = ⟨"", w, h⟩ := by
  refine ⟨rfl, rfl, rfl, fun _ _ => rfl⟩

/-- C10, counterexample: with the records `GstVideoMeta` and `HailoMeta` attached, the
text reports only `HailoMeta`; with the single record `GstVideoMeta`, which is not
recognised, the record is handed out twice, once by each loop. -/
theorem scan_report_counterexample :
    (app_callback sample_cv initial_user (sample_call "RGB" ["GstVideoMeta", "HailoMeta"])).map
        (fun r => r.locals.map (fun l => (l.reported, l.string_to_print)))
      = .ok (some (["HailoMeta"],
          "Frame count: 1\nFound Hailo metadata: HailoMeta\n  -> Processing Hailo metadata for detections\nSIMULATED: Detection: ID: 1 Label: car Confidence: 0.85\n"))
    ∧ (app_callback sample_cv initial_user (sample_call "RGB" ["GstVideoMeta"])).map
        (fun r => r.locals.map (fun l => (l.visited, l.string_to_print)))
      = .ok (some (["GstVideoMeta", "GstVideoMeta"],
          "Frame count: 1\nNo Hailo metadata found in buffer\nAvailable metadata types: GstVideoMeta \nSIMULATED: Detection: ID: 1 Label: car Confidence: 0.85\n")) := by
  exact ⟨rfl, rfl⟩

/-- C10, amended: in every invocation that carries a buffer, when no record is recognised
the text lists the type names of all attached records in attachment order (nothing for a
buffer without records) and every record is handed out twice, once by each loop; when at
least one record is recognised the text reports the recognised records only, in
attachment order, and every record is handed out once. -/
theorem scan_report_order (cv : OpenCV) (user : UserAppCallbackClass) (inv : Invocation)
    (buffer : GstBuffer) (hb : inv.info.buffer = some buffer) :
    ∃ r l sim, app_callback cv user inv = .ok r ∧ r.locals = some l
      ∧ (l.found_hailo_meta = false →
          l.reported = type_names buffer
          ∧ l.visited = type_names buffer ++ type_names buffer
          ∧ l.string_to_print = "Frame count: " ++ to_string r.user.frame_count ++ "\n"
              ++ "No Hailo metadata found in buffer\n" ++ "Available metadata types: "
              ++ concat ((type_names buffer).map (fun n => n ++ " ")) ++ "\n" ++ sim)
      ∧ (l.found_hailo_meta = true →
          l.reported = (type_names buffer).filter is_hailo_name
          ∧ l.visited = type_names buffer
          ∧ l.string_to_print = "Frame count: " ++ to_string r.user.frame_count ++ "\n"
              ++ concat (((type_names buffer).filter is_hailo_name).map found_lines) ++ sim) := by
  obtain ⟨r, frame, hr, hc, hl⟩ := app_callback_locals cv user inv buffer hb
  refine ⟨r, _, (simulate (wrapInt (user.frame_count + 1)) "" 0).1, hr, hl, ?_, ?_⟩
  · intro h
    have h2 : ¬ ((type_names buffer).any is_hailo_name = true) := by
      simpa using h
    refine ⟨?_, ?_, ?_⟩
    · show ite _ _ _ = _; rw [if_neg h2]
    · show ite _ _ _ = _; rw [if_neg h2]
    · show _ ++ _ = _
      unfold scan_report
      rw [if_neg h2, hc]
      simp only [String.append_assoc]
  · intro h
    have h2 : (type_names buffer).any is_hailo_name = true := h
    refine ⟨?_, ?_, ?_⟩
    · show ite _ _ _ = _; rw [if_pos h2]
    · show ite _ _ _ = _; rw [if_pos h2]
    · show _ ++ _ = _
      unfold scan_report
      rw [if_pos h2, hc]

/-- Witness of the amended C10: two records, the second one recognised. -/
theorem scan_report_order_witness :
    ∃ r l, app_callback sample_cv initial_user (sample_call "RGB" ["GstVideoMeta", "HailoMeta"])
        = .ok r ∧ r.locals = some l ∧ l.reported = ["HailoMeta"]
      ∧ l.visited = ["GstVideoMeta", "HailoMeta"] := by
  obtain ⟨r, l, sim, h1, h2, -, h4⟩ :=
    scan_report_order sample_cv initial_user (sample_call "RGB" ["GstVideoMeta", "HailoMeta"])
      (sample_buffer ["GstVideoMeta", "HailoMeta"]) rfl
  have hf : l.found_hailo_meta = true := by
    have h5 : app_callback sample_cv initial_user
        (sample_call "RGB" ["GstVideoMeta", "HailoMeta"]) = .ok r := h1
    have h6 : (app_callback sample_cv initial_user
        (sample_call "RGB" ["GstVideoMeta", "HailoMeta"])).map
          (fun r => r.locals.map (fun l => l.found_hailo_meta)) = .ok (some true) := rfl
    rw [h5] at h6
    simp only [Except.map, h2, Option.map_some'] at h6
    injection h6 with h6
    injection h6
  obtain ⟨h7, h8, -⟩ := h4 hf
  exact ⟨r, l, h1, h2, by rw [h7]; decide, by rw [h8]; decide⟩

theorem expected_from_counts (c : Int) (n s : Nat) :
    (expected_from c n).map (fun x => x.1)
      = (List.range' s n).map (fun i : Nat => c + 1 + ((i : Int) - (s : Int))) := by
  induction n generalizing c s with
  | zero => rfl
  | succ n ih =>
    rw [List.range'_succ]
    simp only [expected_from, List.map_cons, expected]
    rw [ih (c + 1) (s + 1)]
    congr 1
    · omega
    · apply List.map_congr_left
      intro i _
      push_cast
      omega

theorem scenario_renders (cv : OpenCV) (data : List Nat) :
    RendersOverlay cv (scenario_call data) := by
  have hc : resolved_caps (scenario_call data) = ⟨"RGB", 64, 64⟩ := rfl
  refine ⟨⟨[], some data⟩, ⟨64, 64, 3, data.take 12288⟩, rfl, ?_, ?_, ?_, rfl, rfl⟩
  · rw [hc]; decide
  · rw [hc]; decide
  · rw [hc]; decide

theorem scenario_run (cv : OpenCV) (data : List Nat) :
    ∃ u rs, run cv initial_user (List.replicate 31 (scenario_call data)) = .ok (u, rs)
      ∧ u.frame_count = 31
      ∧ rs.map summary = expected_from 0 31 := by
  obtain ⟨u, rs, h1, h2, h3⟩ := run_renders cv (List.replicate 31 (scenario_call data))
    initial_user rfl (by decide) (by rw [List.length_replicate]; decide)
    (fun inv hinv => by rw [List.eq_of_mem_replicate hinv]; exact scenario_renders cv data)
  refine ⟨u, rs, h1, ?_, ?_⟩
  · rw [h2]; rfl
  · rw [h3]; rfl

theorem expected_from_0_31 :
    expected_from 0 31 =
      [(1, some 1, none), (2, some 1, none), (3, some 1, none), (4, some 1, none),
       (5, some 1, none), (6, some 1, none), (7, some 1, none), (8, some 1, none),
       (9, some 1, none), (10, some 0, none), (11, some 0, none), (12, some 0, none),
       (13, some 0, none), (14, some 0, none), (15, some 2, none), (16, some 0, none),
       (17, some 0, none), (18, some 0, none), (19, some 0, none), (20, some 1, none),
       (21, some 1, none), (22, some 1, none), (23, some 1, none), (24, some 1, none),
       (25, some 1, none), (26, some 1, none), (27, some 1, none), (28, some 1, none),
       (29, some 1, none), (30, some 0, some "frame_30.jpg"), (31, some 0, none)] := by
  decide

theorem decode_frame_invalid (cv : OpenCV) (user : UserAppCallbackClass) (caps : CapsInfo)
    (buffer : GstBuffer) (h : caps.format = "" ∨ caps.width ≤ 0 ∨ caps.height ≤ 0) :
    decode_frame cv user caps buffer = .ok Mat.blank := by
  unfold decode_frame
  rw [if_neg]
  rintro ⟨-, h1, h2, h3⟩
  rcases h with h | h | h
  · exact h1 h
  · omega
  · omega

theorem process_frame_blank (cv : OpenCV) (user : UserAppCallbackClass) (caps : CapsInfo)
    (buffer : GstBuffer) :
    (process_frame cv user caps buffer Mat.blank).set_frame = none
      ∧ (process_frame cv user caps buffer Mat.blank).imwrite = none
      ∧ (process_frame cv user caps buffer Mat.blank).user = user := by
  unfold process_frame
  dsimp only
  rw [overlay_skipped _ _ _ _ _ (by simp [Mat.empty, Mat.blank])]
  exact ⟨rfl, rfl, rfl⟩

theorem get_numpy_three_channel (cv : OpenCV) (buffer : GstBuffer) (format : String)
    (w h : Int) (h1 : format ≠ "RGBA") (h2 : format ≠ "YUY2") (h3 : format ≠ "YUYV") :
    get_numpy_from_buffer cv buffer format w h = get_numpy_from_buffer cv buffer "RGB" w h := by
  unfold get_numpy_from_buffer
  cases buffer.mapped with
  | none => rfl
  | some data =>
    dsimp only
    rw [if_pos (rfl : "RGB" = "RGB")]
    by_cases a : format = "RGB"
    · rw [if_pos a]
    · rw [if_neg a]
      by_cases b : format = "BGR"
      · rw [if_pos b]
      · rw [if_neg b, if_neg h1, if_neg (not_or.mpr ⟨h2, h3⟩)]

theorem decode_frame_three_channel (cv : OpenCV) (user : UserAppCallbackClass)
    (buffer : GstBuffer) (fmt : String) (w h : Int) (frame frame2 : Mat)
    (h1 : fmt ≠ "RGBA") (h2 : fmt ≠ "YUY2") (h3 : fmt ≠ "YUYV")
    (hd : decode_frame cv user ⟨"RGB", w, h⟩ buffer = .ok frame)
    (hd2 : decode_frame cv user ⟨fmt, w, h⟩ buffer = .ok frame2) :
    frame2 = frame ∨ frame2 = Mat.blank := by
  unfold decode_frame at hd hd2
  by_cases hg : user.use_frame = true ∧ fmt ≠ "" ∧ 0 < w ∧ 0 < h
  · have hg1 : user.use_frame = true ∧ "RGB" ≠ "" ∧ 0 < w ∧ 0 < h :=
      ⟨hg.1, by decide, hg.2.2.1, hg.2.2.2⟩
    rw [if_pos hg1] at hd
    rw [if_pos hg] at hd2
    dsimp only at hd hd2
    rw [get_numpy_three_channel cv buffer fmt w h h1 h2 h3, hd] at hd2
    cases hd2
    exact Or.inl rfl
  · rw [if_neg hg] at hd2
    cases hd2
    exact Or.inr rfl

theorem overlay_swap (cv : OpenCV) (user : UserAppCallbackClass) (frame : Mat) (d : Int)
    (fmt : String) (w h : Int) (h0 : fmt ≠ "RGB") :
    (∀ img, (overlay cv user ⟨fmt, w, h⟩ frame d).set_frame = some img →
        (overlay cv user ⟨"RGB", w, h⟩ frame d).set_frame
            = some (cv.cvtColor img ColorConversionCodes.COLOR_RGB2BGR)
          ∧ (overlay cv user ⟨fmt, w, h⟩ frame d).user.current_frame = img
          ∧ (overlay cv user ⟨"RGB", w, h⟩ frame d).user.current_frame
              = cv.cvtColor img ColorConversionCodes.COLOR_RGB2BGR)
    ∧ (∀ name img, (overlay cv user ⟨fmt, w, h⟩ frame d).imwrite = some (name, img) →
        (overlay cv user ⟨"RGB", w, h⟩ frame d).imwrite
            = some (name, cv.cvtColor img ColorConversionCodes.COLOR_RGB2BGR)) := by
  by_cases hg : user.use_frame = true ∧ frame.empty = false
  · rw [overlay_rendered cv user _ frame d hg.1 hg.2, overlay_rendered cv user _ frame d hg.1 hg.2]
    dsimp only
    rw [if_neg h0, if_pos rfl]
    refine ⟨?_, ?_⟩
    · intro img himg
      simp only [Option.some.injEq] at himg
      subst himg
      exact ⟨rfl, rfl, rfl⟩
    · intro name img himg
      by_cases h30 : user.frame_count % 30 = 0
      · rw [if_pos h30] at himg ⊢
        simp only [Option.some.injEq, Prod.mk.injEq] at himg
        obtain ⟨rfl, rfl⟩ := himg
        rfl
      · rw [if_neg h30] at himg
        simp at himg
  · rw [overlay_skipped cv user _ frame d hg]
    refine ⟨?_, ?_⟩
    · intro img himg; simp at himg
    · intro name img himg; simp at himg

/-- C4: in a run of invocations that each render the overlay, with capture enabled, from
a count `c >= 0` and within the range of `int`, the invocations have the frame counts
`c + 1, c + 2, ...`; each of them writes a file if and only if its frame count `k` has
`k mod 30 = 0`, under the name `frame_<k>.jpg`; the names written are pairwise distinct;
and from count 0 the `N` invocations write exactly `N / 30` files. -/
theorem persistence_cadence (cv : OpenCV) (user : UserAppCallbackClass)
    (invs : List Invocation) (hu : user.use_frame = true) (hlo : 0 ≤ user.frame_count)
    (hhi : user.frame_count + (invs.length : Int) ≤ INT_MAX)
    (hr : ∀ inv ∈ invs, RendersOverlay cv inv) :
    ∃ u rs, run cv user invs = .ok (u, rs) ∧ rs.length = invs.length
      ∧ rs.map (fun r => r.user.frame_count)
          = (List.range' 1 invs.length).map (fun i : Nat => user.frame_count + (i : Int))
      ∧ (∀ r ∈ rs, (r.imwrite.isSome = true ↔ r.user.frame_count % 30 = 0)
          ∧ ∀ w, r.imwrite = some w
              → w.1 = "frame_" ++ toString r.user.frame_count ++ ".jpg")
      ∧ (saved_names rs).Nodup
      ∧ (user.frame_count = 0 → (saved_names rs).length = invs.length / 30) := by
  obtain ⟨u, rs, h1, -, h3⟩ := run_renders cv invs user hu hlo hhi hr
  have hlen : rs.length = invs.length := by
    have := congrArg List.length h3
    simpa [expected_from_length] using this
  refine ⟨u, rs, h1, hlen, ?_, ?_, ?_, ?_⟩
  · have := congrArg (List.map (fun x => x.1)) h3
    rw [expected_from_counts _ _ 1, List.map_map] at this
    rw [show (fun r : CallbackResult => r.user.frame_count) = (fun x => x.1) ∘ summary from rfl,
      this]
    apply List.map_congr_left
    intro i _
    push_cast
    omega
  · intro r hrmem
    have hmem : summary r ∈ expected_from user.frame_count invs.length := by
      rw [← h3]; exact List.mem_map_of_mem _ hrmem
    obtain ⟨k, -, -, hk⟩ := expected_from_mem _ _ _ hmem
    have hk1 : r.user.frame_count = k := congrArg Prod.fst hk
    have hk2 : r.imwrite.map (fun w => w.1) = if k % 30 = 0 then some (filename k) else none :=
      congrArg (fun x => x.2.2) hk
    rw [hk1]
    by_cases h30 : k % 30 = 0
    · rw [if_pos h30] at hk2
      refine ⟨?_, ?_⟩
      · cases hw : r.imwrite with
        | none => rw [hw] at hk2; simp at hk2
        | some w => simp [h30]
      · intro w hw
        rw [hw] at hk2
        simp only [Option.map_some', Option.some.injEq] at hk2
        rw [hk2]; rfl
    · rw [if_neg h30] at hk2
      cases hw : r.imwrite with
      | none => simp [h30]
      | some w => rw [hw] at hk2; simp at hk2
  · rw [saved_names_eq, h3]
    exact expected_from_saved_nodup _ _ hlo
  · intro h0
    have := expected_from_saved_length user.frame_count invs.length hlo
    rw [saved_names_eq, h3]
    rw [h0] at this ⊢
    simp only [zero_add, Int.zero_ediv, sub_zero] at this
    exact_mod_cast this

/-- Witness of C4: 31 rendering invocations from count 0 write one file. -/
theorem persistence_cadence_witness :
    ∃ u rs, run sample_cv initial_user (List.replicate 31 (sample_call "RGB" [])) = .ok (u, rs)
      ∧ rs.length = 31 ∧ (saved_names rs).length = 1 := by
  obtain ⟨u, rs, h1, h2, -, -, -, h6⟩ :=
    persistence_cadence sample_cv initial_user (List.replicate 31 (sample_call "RGB" []))
      rfl (by decide) (by decide)
      (fun inv hinv => by
        rw [List.eq_of_mem_replicate hinv]
        exact ⟨sample_buffer [], ⟨2, 2, 3, [1, 2, 3, 4, 5, 6, 7, 8, 9, 10, 11, 12]⟩, rfl,
          by decide, by decide, by decide, rfl, rfl⟩)
  exact ⟨u, rs, h1, by rw [h2]; rfl, by rw [h6 rfl]; rfl⟩

/-- C5, counterexample: in the scenario (31 frames, caps `RGB` 64 by 64, no record, a
mapped buffer of 12288 bytes) the invocation with frame count 30 has detection count 0,
and so has the last one, with frame count 31; the claim gives 1 for 30. -/
theorem end_to_end_counterexample :
    ∃ u rs, run sample_cv initial_user
        (List.replicate 31 (scenario_call (List.replicate 12288 0))) = .ok (u, rs)
      ∧ (30, some 0, some "frame_30.jpg") ∈ rs.map summary
      ∧ (31, some 0, none) ∈ rs.map summary
      ∧ ∀ x ∈ rs.map summary, x.1 = 30 → x.2.1 ≠ some 1 := by
  obtain ⟨u, rs, h1, -, h3⟩ := scenario_run sample_cv (List.replicate 12288 0)
  refine ⟨u, rs, h1, ?_, ?_, ?_⟩
  · rw [h3, expected_from_0_31]; decide
  · rw [h3, expected_from_0_31]; decide
  · rw [h3, expected_from_0_31]; decide

/-- C5, amended: 31 consecutive frames with capture enabled, no attached record, caps
`RGB` 64 by 64 and a mapped buffer, from `frame_count = 0`, end with `frame_count = 31`,
write exactly one file, `frame_30.jpg`, at frame count 30, and have the detection counts,
by frame count after the increment: 1 to 9 give 1, 10 to 14 give 0, 15 gives 2, 16 to 19
give 0, 20 to 29 give 1, 30 and 31 give 0. -/
theorem end_to_end_scenario (cv : OpenCV) (data : List Nat) :
    ∃ u rs, run cv initial_user (List.replicate 31 (scenario_call data)) = .ok (u, rs)
      ∧ u.frame_count = 31
      ∧ saved_names rs = ["frame_30.jpg"]
      ∧ rs.map summary =
        [(1, some 1, none), (2, some 1, none), (3, some 1, none), (4, some 1, none),
         (5, some 1, none), (6, some 1, none), (7, some 1, none), (8, some 1, none),
         (9, some 1, none), (10, some 0, none), (11, some 0, none), (12, some 0, none),
         (13, some 0, none), (14, some 0, none), (15, some 2, none), (16, some 0, none),
         (17, some 0, none), (18, some 0, none), (19, some 0, none), (20, some 1, none),
         (21, some 1, none), (22, some 1, none), (23, some 1, none), (24, some 1, none),
         (25, some 1, none), (26, some 1, none), (27, some 1, none), (28, some 1, none),
         (29, some 1, none), (30, some 0, some "frame_30.jpg"), (31, some 0, none)] := by
  obtain ⟨u, rs, h1, h2, h3⟩ := scenario_run cv data
  refine ⟨u, rs, h1, h2, ?_, ?_⟩
  · rw [saved_names_eq, h3, expected_from_0_31]; rfl
  · rw [h3, expected_from_0_31]

/-- C7: for caps whose format is empty or whose width or height is not positive, for
every buffer and capture setting, the decoding step yields the empty default matrix
without an exception, and every invocation that resolves these caps returns normally
without rendering: no `set_frame`, no `imwrite`, and `current_frame` as before. -/
theorem invalid_caps_never_decode (cv : OpenCV) (user : UserAppCallbackClass)
    (caps : CapsInfo) (h : caps.format = "" ∨ caps.width ≤ 0 ∨ caps.height ≤ 0) :
    (∀ buffer, decode_frame cv user caps buffer = .ok Mat.blank)
    ∧ Mat.blank.empty = true
    ∧ ∀ inv, resolved_caps inv = caps →
        ∃ r, app_callback cv user inv = .ok r
          ∧ r.ret = GstPadProbeReturn.GST_PAD_PROBE_OK
          ∧ r.set_frame = none ∧ r.imwrite = none
          ∧ r.user.current_frame = user.current_frame
          ∧ ∀ l, r.locals = some l → l.decoded = Mat.blank ∧ l.decoded.empty = true := by
  refine ⟨fun buffer => decode_frame_invalid cv user caps buffer h, rfl, ?_⟩
  intro inv hcaps
  cases hb : inv.info.buffer with
  | none =>
    refine ⟨_, app_callback_no_buffer cv user inv hb, rfl, rfl, rfl, rfl, ?_⟩
    intro l hl
    simp at hl
  | some buffer =>
    obtain ⟨frame, hd, hr⟩ := app_callback_buffer cv user inv buffer hb
    rw [hcaps, decode_frame_invalid cv user.increment caps buffer h] at hd
    cases hd
    obtain ⟨p1, p2, p3⟩ := process_frame_blank cv user.increment (resolved_caps inv) buffer
    refine ⟨_, hr, rfl, p1, p2, ?_, ?_⟩
    · rw [p3]; rfl
    · intro l hl
      rw [process_frame_locals] at hl
      cases hl
      exact ⟨rfl, rfl⟩

/-- Witness of C7: caps of width 0, and a pad without caps. -/
theorem invalid_caps_never_decode_witness :
    (∃ r, app_callback sample_cv initial_user
        ⟨⟨some [⟨some "RGB", some 0, some 2⟩]⟩, ⟨some (sample_buffer [])⟩, 7, 9⟩ = .ok r
      ∧ r.set_frame = none ∧ r.imwrite = none ∧ r.user.current_frame = Mat.blank)
    ∧ (∃ r, app_callback sample_cv initial_user
        ⟨⟨none⟩, ⟨some (sample_buffer [])⟩, 7, 9⟩ = .ok r
      ∧ r.set_frame = none ∧ r.imwrite = none ∧ r.user.current_frame = Mat.blank) := by
  refine ⟨?_, ?_⟩
  · obtain ⟨r, h1, -, h2, h3, h4, -⟩ :=
      (invalid_caps_never_decode sample_cv initial_user ⟨"RGB", 0, 2⟩
        (Or.inr (Or.inl (by decide)))).2.2
        ⟨⟨some [⟨some "RGB", some 0, some 2⟩]⟩, ⟨some (sample_buffer [])⟩, 7, 9⟩ rfl
    exact ⟨r, h1, h2, h3, h4⟩
  · obtain ⟨r, h1, -, h2, h3, h4, -⟩ :=
      (invalid_caps_never_decode sample_cv initial_user ⟨"", 7, 9⟩ (Or.inl rfl)).2.2
        ⟨⟨none⟩, ⟨some (sample_buffer [])⟩, 7, 9⟩ rfl
    exact ⟨r, h1, h2, h3, h4⟩

/-- C9: `get_numpy_from_buffer` returns for `BGR` and for every format other than `RGBA`,
`YUY2` and `YUYV` what it returns for `RGB` on the same buffer and geometry; the overlay
block swaps the channels exactly when the format is `RGB`; hence, of two invocations on
the same user object and probe info whose caps differ only in the format, `RGB` against
a format `fmt` that is none of `RGB`, `RGBA`, `YUY2`, `YUYV`, whenever the second stores
a frame the first stores the channel swap of that frame, with the same detection count,
and likewise for the file written. -/
theorem three_channel_swap_asymmetry (cv : OpenCV) (user : UserAppCallbackClass)
    (inv inv2 : Invocation) (fmt : String) (w h : Int)
    (h0 : fmt ≠ "RGB") (h1 : fmt ≠ "RGBA") (h2 : fmt ≠ "YUY2") (h3 : fmt ≠ "YUYV")
    (hinfo : inv2.info = inv.info)
    (hcaps : resolved_caps inv = ⟨"RGB", w, h⟩) (hcaps2 : resolved_caps inv2 = ⟨fmt, w, h⟩) :
    (∀ buffer, get_numpy_from_buffer cv buffer fmt w h
        = get_numpy_from_buffer cv buffer "RGB" w h)
    ∧ (∀ buffer, get_numpy_from_buffer cv buffer "BGR" w h
        = get_numpy_from_buffer cv buffer "RGB" w h)
    ∧ (∀ (caps : CapsInfo) (frame : Mat) (d : Int), user.use_frame = true → frame.empty = false →
        (overlay cv user caps frame d).set_frame
          = some (if caps.format = "RGB" then
                    cv.cvtColor (drawn cv user frame d) ColorConversionCodes.COLOR_RGB2BGR
                  else drawn cv user frame d))
    ∧ ∃ r r2, app_callback cv user inv = .ok r ∧ app_callback cv user inv2 = .ok r2
        ∧ r.locals.map (fun l => l.detection_count) = r2.locals.map (fun l => l.detection_count)
        ∧ (∀ img, r2.set_frame = some img
            → r.set_frame = some (cv.cvtColor img ColorConversionCodes.COLOR_RGB2BGR)
              ∧ r2.user.current_frame = img
              ∧ r.user.current_frame = cv.cvtColor img ColorConversionCodes.COLOR_RGB2BGR)
        ∧ (∀ name img, r2.imwrite = some (name, img)
            → r.imwrite = some (name, cv.cvtColor img ColorConversionCodes.COLOR_RGB2BGR)) := by
  refine ⟨fun buffer => get_numpy_three_channel cv buffer fmt w h h1 h2 h3,
    fun buffer => get_numpy_three_channel cv buffer "BGR" w h (by decide) (by decide) (by decide),
    ?_, ?_⟩
  · intro caps frame d hu hf
    rw [overlay_rendered cv user caps frame d hu hf]
  cases hb : inv.info.buffer with
  | none =>
    have hb2 : inv2.info.buffer = none := by rw [hinfo]; exact hb
    refine ⟨_, _, app_callback_no_buffer cv user inv hb, app_callback_no_buffer cv user inv2 hb2,
      rfl, ?_, ?_⟩
    · intro img himg; simp at himg
    · intro name img himg; simp at himg
  | some buffer =>
    have hb2 : inv2.info.buffer = some buffer := by rw [hinfo]; exact hb
    obtain ⟨frame, hd, hr⟩ := app_callback_buffer cv user inv buffer hb
    obtain ⟨frame2, hd2, hr2⟩ := app_callback_buffer cv user inv2 buffer hb2
    rw [hcaps] at hd hr
    rw [hcaps2] at hd2 hr2
    refine ⟨_, _, hr, hr2, ?_, ?_, ?_⟩
    · rw [process_frame_locals, process_frame_locals]; rfl
    · rcases decode_frame_three_channel cv user.increment buffer fmt w h frame frame2 h1 h2 h3
        hd hd2 with hf | hf
      · subst hf
        exact (overlay_swap cv user.increment frame2 _ fmt w h h0).1
      · subst hf
        intro img himg
        rw [(process_frame_blank _ _ _ _).1] at himg
        simp at himg
    · rcases decode_frame_three_channel cv user.increment buffer fmt w h frame frame2 h1 h2 h3
        hd hd2 with hf | hf
      · subst hf
        exact (overlay_swap cv user.increment frame2 _ fmt w h h0).2
      · subst hf
        intro name img himg
        rw [(process_frame_blank _ _ _ _).2.1] at himg
        simp at himg

/-- Witness of C9: the same 2 by 2 buffer under `RGB` and under `BGR` caps; the frame
stored for `RGB` is the channel swap of the frame stored for `BGR`. -/
theorem three_channel_swap_asymmetry_witness :
    ∃ r r2, app_callback sample_cv initial_user (sample_call "RGB" []) = .ok r
      ∧ app_callback sample_cv initial_user (sample_call "BGR" []) = .ok r2
      ∧ r2.set_frame = some ⟨2, 2, 3, [1, 2, 3, 4, 5, 6, 7, 8, 9, 10, 11, 12]⟩
      ∧ r.set_frame = some ⟨2, 2, 3, [3, 2, 1, 6, 5, 4, 9, 8, 7, 12, 11, 10]⟩ := by
  obtain ⟨-, -, -, r, r2, h1, h2, -, h3, -⟩ :=
    three_channel_swap_asymmetry sample_cv initial_user (sample_call "RGB" [])
      (sample_call "BGR" []) "BGR" 2 2 (by decide) (by decide) (by decide) (by decide)
      rfl rfl rfl
  have h4 : (app_callback sample_cv initial_user (sample_call "BGR" [])).map
      (fun r => r.set_frame)
        = .ok (some ⟨2, 2, 3, [1, 2, 3, 4, 5, 6, 7, 8, 9, 10, 11, 12]⟩) := rfl
  rw [h2] at h4
  have h5 : r2.set_frame = some ⟨2, 2, 3, [1, 2, 3, 4, 5, 6, 7, 8, 9, 10, 11, 12]⟩ := by
    simp only [Except.map] at h4
    injection h4
  exact ⟨r, r2, h1, h2, h5, (h3 _ h5).1⟩

end HailoRpi5
